import Mathlib

/-!
Shallow embedding of `src/app/src/main/cpp/tutorial_udpsink.c` (an Android
JNI bridge driving two GStreamer pipelines), together with theorems settling
the specification claims.

Modelling conventions:
* The GStreamer engine is an opaque oracle `Env` deciding whether element
  creation (`gst_element_factory_make`), element linking (`gst_element_link`)
  and state-change requests (`gst_element_set_state`) succeed.
* Each C function becomes a Lean function from the relevant state to a
  result, a new state, and a trace of observable events (`Ev`): g_print and
  GST_DEBUG output, property sets, state-change requests, JNI callbacks into
  the controller, thread operations.
* `g_assert` failure is the distinguished outcome `Res.assertAbort`.
* C `char` follows the Android ARM ABI, where plain `char` is unsigned: byte
  values are naturals reduced mod 256 where the C code narrows to a byte.
-/

namespace GstUp

/-- GStreamer element states used by the program (GST_STATE_NULL etc.). -/
inductive GstState
  | null
  | ready
  | paused
  | playing
deriving DecidableEq, Repr

/-- Observable events emitted by the native code: log output, engine calls,
and JNI callbacks into the Java controller. -/
inductive Ev
  | print (m : String)
  | debug (m : String)
  | factoryMake (factory : String)
  | newPipeline (name : String)
  | binAdd (pipe : String) (elems : List String)
  | linkAttempt (src dst : String)
  | setProp (elem prop val : String)
  | setState (pipe : String) (st : GstState)
  | getStaticPad (elem pad : String)
  | padLink (srcPad dstPad : String)
  | uiMessage (m : String)
  | onInitialized
  | quitMainLoop
  | joinThread
  | deleteGlobalRef
  | freeData
  | clearNativeField
deriving DecidableEq, Repr

/-- Oracle for the opaque GStreamer engine: which factories produce a
non-null element, which element pairs link successfully, and whether a
state-change request returns a non-FAILURE code. -/
structure Env where
  makeOk : String → Bool
  linkOk : String → String → Bool
  setStateOk : String → GstState → Bool

/-- Outcome of running a piece of native code: normal completion with a
return value, new state and trace, or a `g_assert` abort (which kills the
process, keeping the trace emitted so far). -/
inductive Res (σ : Type)
  | done (ret : Int) (s : σ) (tr : List Ev)
  | assertAbort (tr : List Ev)
deriving Repr

/-- Predicate: an event is a JNI callback into the controller
(`setMessage` or `onGStreamerInitialized`). -/
def Ev.isCallback : Ev → Bool
  | .uiMessage _ => true
  | .onInitialized => true
  | _ => false

/-- Predicate: an event is a state-change request. -/
def Ev.isSetState : Ev → Bool
  | .setState _ _ => true
  | _ => false

/-- Predicate: an event is a pad-to-pad link attempt. -/
def Ev.isPadLink : Ev → Bool
  | .padLink _ _ => true
  | _ => false

/-- Predicate: an event is an element link attempt. -/
def Ev.isLinkAttempt : Ev → Bool
  | .linkAttempt _ _ => true
  | _ => false

/-- Predicate: an event is an element-factory instantiation. -/
def Ev.isFactoryMake : Ev → Bool
  | .factoryMake _ => true
  | _ => false

/-! ## Global state of the video pipeline

The C file keeps the video pipeline in process-wide globals:
`pipeline`, `camera`, `queue`, `capsfilter`, `videoconvert`, `encoder`,
`udpsink`, `first_time_video`, `video_running`. -/

/-- State of the video pipeline globals. `stages` are the element names
added to the pipeline bin, `links` the successfully created links,
`sinkHost`/`sinkPort` the properties last set on the udpsink, and
`reqState` the last state requested of the pipeline. -/
structure VState where
  first_time_video : Bool
  video_running : Bool
  stages : List String
  links : List (String × String)
  sinkHost : Option String
  sinkPort : Option Nat
  reqState : Option GstState
deriving DecidableEq, Repr

/-- Initial values of the video globals (`first_time_video = TRUE`,
`video_running = FALSE`, no pipeline built). -/
def VState.init : VState :=
  { first_time_video := true
    video_running := false
    stages := []
    links := []
    sinkHost := none
    sinkPort := none
    reqState := none }

/-- State of the audio pipeline globals (`pipeline_audio`, `audiosource`,
`audioconvert`, `speexenc`, `audioudpsink`, `first_time_audio`).
`sourceName` records which element currently serves as capture source. -/
structure AState where
  first_time_audio : Bool
  sourceName : Option String
  stages : List String
  links : List (String × String)
  sinkHost : Option String
  sinkPort : Option Nat
  reqState : Option GstState
deriving DecidableEq, Repr

/-- Initial values of the audio globals. -/
def AState.init : AState :=
  { first_time_audio := true
    sourceName := none
    stages := []
    links := []
    sinkHost := none
    sinkPort := none
    reqState := none }

/-! ## Address decoding and formatting -/

/-- One decoded IPv4 address as four octet values. -/
structure Addr where
  b0 : Nat
  b1 : Nat
  b2 : Nat
  b3 : Nat
deriving DecidableEq, Repr

/-- The `sprintf(remote_IP_string, "%d.%d.%d.%d", arg[0..3])` of
`video_start`/`audio_start` (Android ARM: `char` is unsigned, so each byte
prints as its value 0..255). -/
def remote_IP_string (a : Addr) : String :=
  toString a.b0 ++ "." ++ toString a.b1 ++ "." ++ toString a.b2 ++ "." ++ toString a.b3

/-- Byte decoding done by `gst_native_stream_start`:
`unsigned char ip[i] = byte_i + 128` — addition then narrowing to a byte,
i.e. (b + 128) mod 256. -/
def decodeByte (b : Nat) : Nat :=
  (b % 256 + 128) % 256

/-- The address decoded from the four raw wire bytes. -/
def decodeAddr (b0 b1 b2 b3 : Nat) : Addr :=
  ⟨decodeByte b0, decodeByte b1, decodeByte b2, decodeByte b3⟩

/-- Un-biasing by subtracting 128 modulo 256, the decoding the spec
describes for the +128 offset wire convention. -/
def unbias128 (b : Nat) : Nat :=
  (b % 256 + (256 - 128)) % 256

/-! ## video_stop / audio_stop -/

/-- `video_stop`: requests PAUSED then NULL on the video pipeline, clears
`video_running`, returns 1. -/
def video_stop (s : VState) : Res VState :=
  let s1 := { s with reqState := some GstState.paused }
  let s2 := { s1 with reqState := some GstState.null }
  let s3 := { s2 with video_running := false }
  Res.done 1 s3
    [Ev.setState "pipeline" GstState.paused,
     Ev.print "Video pipeline: paused\n",
     Ev.setState "pipeline" GstState.null,
     Ev.print "Video pipeline: null\n"]

/-- `audio_stop`: requests PAUSED then NULL on the audio pipeline,
returns 1. -/
def audio_stop (s : AState) : Res AState :=
  let s1 := { s with reqState := some GstState.paused }
  let s2 := { s1 with reqState := some GstState.null }
  Res.done 1 s2
    [Ev.setState "pipeline-audio" GstState.paused,
     Ev.print "Audio pipeline: paused\n",
     Ev.setState "pipeline-audio" GstState.null,
     Ev.print "Audio pipeline: null\n"]

/-! ## video_start

`video_start(char arg[])` formats the dotted-quad destination string, builds
the video pipeline on first call (ahcsrc → queue → capsfilter(320x240) →
videoconvert → openh264enc → udpsink), then sets port 5000 and the host on
the udpsink and requests PLAYING. -/

/-- One entry of a fixed link sequence: the two element names passed to
`gst_element_link` plus the exact success (`g_print`) and failure
(`GST_DEBUG`) messages of the corresponding C block. -/
structure LinkSpec where
  src : String
  dst : String
  okMsg : String
  failMsg : String
deriving DecidableEq, Repr

/-- A chain of
`if (!gst_element_link(a, b)) { GST_DEBUG (fail); return -1; } else { g_print (ok); }`
blocks: attempts the links in order, stopping at the first failure.
Returns the links actually created, the trace, and whether the whole
chain succeeded (`false` means the enclosing function returns -1 at the
failing block). -/
def runLinks (env : Env) : List LinkSpec → List (String × String) × List Ev × Bool
  | [] => ([], [], true)
  | l :: rest =>
      if env.linkOk l.src l.dst then
        let r := runLinks env rest
        ((l.src, l.dst) :: r.1, Ev.linkAttempt l.src l.dst :: Ev.print l.okMsg :: r.2.1, r.2.2)
      else
        ([], [Ev.linkAttempt l.src l.dst, Ev.debug l.failMsg], false)

/-- The element pairs a trace shows link attempts for, in order. -/
def linkAttempts (tr : List Ev) : List (String × String) :=
  tr.filterMap fun e =>
    match e with
    | Ev.linkAttempt a b => some (a, b)
    | _ => none

/-- Trace of a link chain in which every link succeeded. -/
def okLinksTrace : List LinkSpec → List Ev
  | [] => []
  | l :: rest => Ev.linkAttempt l.src l.dst :: Ev.print l.okMsg :: okLinksTrace rest

/-- The six video stages in the order they are added to the bin. -/
def videoStages : List String :=
  ["ahcsrc", "srcqueue", "capsfilter", "videoconvert", "encoder", "sink"]

/-- The declared video link sequence of `video_start`, with the exact log
messages of each block. -/
def videoLinkSpecs : List LinkSpec :=
  [⟨"ahcsrc", "srcqueue",
    "Linked ahcsrc camera with queue: OK\n", "Failed to link ahcsrc camera with queue!\n"⟩,
   ⟨"srcqueue", "capsfilter",
    "Linked queue with capsfilter: OK\n", "Failed to link queue with capsfilter!\n"⟩,
   ⟨"capsfilter", "videoconvert",
    "Linked capsfilter with converter: OK\n", "Failed to link capsfilter with converter!\n"⟩,
   ⟨"videoconvert", "encoder",
    "Linked converter with encoder: OK\n", "Failed to link converter with encoder!\n"⟩,
   ⟨"encoder", "sink",
    "Linked encoder with UDP sink: OK\n", "Failed to link encoder with UDP sink!\n"⟩]

/-- Events of the video element-creation section when every factory
succeeds: the six makes in program order, the pipeline creation, the
320x240 caps property, and the bin add. -/
def videoMakesTrace : List Ev :=
  [Ev.factoryMake "ahcsrc", Ev.newPipeline "pipeline", Ev.factoryMake "queue",
   Ev.factoryMake "capsfilter",
   Ev.setProp "capsfilter" "caps" "video/x-raw, width=320, height=240",
   Ev.factoryMake "videoconvert", Ev.factoryMake "openh264enc",
   Ev.factoryMake "udpsink", Ev.binAdd "pipeline" videoStages]

/-- Build-once block of `video_start` (the `if (first_time_video)` body):
instantiates the six elements (asserting each non-null), sets the 320x240
caps, adds all elements to the bin, and links them in declared order; a
link failure returns -1 immediately. On full success clears
`first_time_video`. -/
def video_build (env : Env) (s : VState) : Res VState :=
  if env.makeOk "ahcsrc" then
    if env.makeOk "queue" then
      if env.makeOk "capsfilter" then
        if env.makeOk "videoconvert" then
          if env.makeOk "openh264enc" then
            if env.makeOk "udpsink" then
              match runLinks env videoLinkSpecs with
              | (newLinks, ltr, ok) =>
                  let s1 := { s with stages := s.stages ++ videoStages,
                                     links := s.links ++ newLinks }
                  if ok then
                    Res.done 0 { s1 with first_time_video := false } (videoMakesTrace ++ ltr)
                  else
                    Res.done (-1) s1 (videoMakesTrace ++ ltr)
            else
              Res.assertAbort
                [Ev.factoryMake "ahcsrc", Ev.newPipeline "pipeline", Ev.factoryMake "queue",
                 Ev.factoryMake "capsfilter",
                 Ev.setProp "capsfilter" "caps" "video/x-raw, width=320, height=240",
                 Ev.factoryMake "videoconvert", Ev.factoryMake "openh264enc",
                 Ev.factoryMake "udpsink", Ev.debug "UDP sink is null: NOGO!"]
          else
            Res.assertAbort
              [Ev.factoryMake "ahcsrc", Ev.newPipeline "pipeline", Ev.factoryMake "queue",
               Ev.factoryMake "capsfilter",
               Ev.setProp "capsfilter" "caps" "video/x-raw, width=320, height=240",
               Ev.factoryMake "videoconvert", Ev.factoryMake "openh264enc",
               Ev.debug "encoder is null: NOGO!"]
        else
          Res.assertAbort
            [Ev.factoryMake "ahcsrc", Ev.newPipeline "pipeline", Ev.factoryMake "queue",
             Ev.factoryMake "capsfilter",
             Ev.setProp "capsfilter" "caps" "video/x-raw, width=320, height=240",
             Ev.factoryMake "videoconvert", Ev.debug "videoconvert is null: NOGO!"]
      else
        Res.assertAbort
          [Ev.factoryMake "ahcsrc", Ev.newPipeline "pipeline", Ev.factoryMake "queue",
           Ev.factoryMake "capsfilter", Ev.debug "capsfilter is null: NOGO!"]
    else
      Res.assertAbort
        [Ev.factoryMake "ahcsrc", Ev.newPipeline "pipeline", Ev.factoryMake "queue"]
  else
    Res.assertAbort [Ev.factoryMake "ahcsrc", Ev.debug "NOGO: camera is null!"]

/-- Tail of `video_start` after the build-once block: sets port 5000 then
the destination host on the udpsink, requests PLAYING; returns 0 and sets
`video_running` on a non-FAILURE state-change return, else -1. -/
def video_start_tail (env : Env) (ip : String) (s : VState) (tr : List Ev) : Res VState :=
  let s1 := { s with sinkPort := some 5000 }
  let s2 := { s1 with sinkHost := some ip }
  let s3 := { s2 with reqState := some GstState.playing }
  let tr1 := tr ++ [Ev.setProp "sink" "port" "5000",
                    Ev.setProp "sink" "host" ip,
                    Ev.setState "pipeline" GstState.playing]
  if env.setStateOk "pipeline" GstState.playing then
    Res.done 0 { s3 with video_running := true }
      (tr1 ++ [Ev.print "Video pipeline state set to playing: OK\n"])
  else
    Res.done (-1) s3 (tr1 ++ [Ev.debug "Failed to start up video pipeline!\n"])

/-- `video_start`: build-once block, then destination set and PLAYING
request. -/
def video_start (env : Env) (arg : Addr) (s : VState) : Res VState :=
  let ip := remote_IP_string arg
  if s.first_time_video then
    match video_build env s with
    | Res.assertAbort tr => Res.assertAbort tr
    | Res.done r s1 tr =>
        if r = -1 then Res.done (-1) s1 tr
        else video_start_tail env ip s1 tr
  else
    video_start_tail env ip s []

/-- `gst_native_stream_start`: decodes the four raw bytes by adding 128 and
narrowing to a byte, prints the receiver IP, runs `video_start` and logs
"OK" exactly when its return value is strictly positive. -/
def gst_native_stream_start (env : Env) (b0 b1 b2 b3 : Nat) (s : VState) : Res VState :=
  match video_start env (decodeAddr b0 b1 b2 b3) s with
  | Res.assertAbort tr =>
      Res.assertAbort
        (Ev.print ("receiver IP: " ++ remote_IP_string (decodeAddr b0 b1 b2 b3) ++ "\n") :: tr)
  | Res.done r s1 tr =>
      Res.done 0 s1
        (Ev.print ("receiver IP: " ++ remote_IP_string (decodeAddr b0 b1 b2 b3) ++ "\n") ::
          tr ++ [Ev.print ("stream_start: " ++ (if r > 0 then "OK" else "NOT OK") ++ "\n"),
                 Ev.debug "my pipeline streaming started"])

/-- `gst_native_stream_stop`: calls `video_stop` and logs OK / NOT OK. -/
def gst_native_stream_stop (s : VState) : Res VState :=
  match video_stop s with
  | Res.assertAbort tr => Res.assertAbort tr
  | Res.done r s1 tr =>
      Res.done 0 s1
        (tr ++ [Ev.print ("stream_stop: " ++ (if r > 0 then "OK" else "NOT OK") ++ "\n"),
                Ev.debug "my pipeline streaming stopped"])

/-! ## audio_start

`audio_start(char arg[])` builds the audio pipeline on first call
(openslessrc — falling back to audiotestsrc when unavailable — →
audioconvert → speexenc → udpsink), then sets the host and port 5001 on
the udpsink and requests PLAYING, returning 1 on success and -1 on
failure. -/

/-- The declared audio link sequence, parameterized by the element name of
the capture source actually used (primary `audiosource` or the fallback
`audiotestsrc`). -/
def audioLinkSpecs (srcName : String) : List LinkSpec :=
  [⟨srcName, "audio-convert",
    "Linked audio source with audioconvert: OK\n", "Failed to link audio source with audioconvert!\n"⟩,
   ⟨"audio-convert", "audio-encoder",
    "Linked audioconvert with speexenc: OK\n", "Failed to link audioconvert with speexenc!\n"⟩,
   ⟨"audio-encoder", "sink",
    "Linked speexenc with audioudpsink: OK\n", "Failed to link speexenc with audioudpsink!\n"⟩]

/-- Events of the audio creation section up to the asserts: the pipeline,
the four makes in program order, and — only when openslessrc returned
null — the one fallback make of audiotestsrc. -/
def audioMakesTrace (srcOk : Bool) : List Ev :=
  [Ev.newPipeline "pipeline-audio", Ev.factoryMake "openslessrc",
   Ev.factoryMake "audioconvert", Ev.factoryMake "speexenc",
   Ev.factoryMake "udpsink"] ++
    (if srcOk then [] else [Ev.factoryMake "audiotestsrc"])

/-- The four audio stages in bin order, for a given source element name. -/
def audioStages (srcName : String) : List String :=
  [srcName, "audio-convert", "audio-encoder", "sink"]

/-- Build-once block of `audio_start`: creates the pipeline and the four
elements, asserts the udpsink, substitutes audiotestsrc when openslessrc
returned null, asserts every element, adds all to the bin and links them
in declared order; a link failure returns -1 immediately. On full success
clears `first_time_audio`. -/
def audio_build (env : Env) (s : AState) : Res AState :=
  if env.makeOk "udpsink" then
    if env.makeOk "openslessrc" || env.makeOk "audiotestsrc" then
      if env.makeOk "audioconvert" then
        if env.makeOk "speexenc" then
          match runLinks env (audioLinkSpecs
              (if env.makeOk "openslessrc" then "audiosource" else "audiotestsrc")) with
          | (newLinks, ltr, ok) =>
              let srcName := if env.makeOk "openslessrc" then "audiosource" else "audiotestsrc"
              let s1 := { s with sourceName := some srcName,
                                 stages := s.stages ++ audioStages srcName,
                                 links := s.links ++ newLinks }
              let tr := audioMakesTrace (env.makeOk "openslessrc") ++
                Ev.binAdd "pipeline-audio" (audioStages srcName) :: ltr
              if ok then
                Res.done 0 { s1 with first_time_audio := false } tr
              else
                Res.done (-1) s1 tr
        else
          Res.assertAbort (audioMakesTrace (env.makeOk "openslessrc"))
      else
        Res.assertAbort (audioMakesTrace (env.makeOk "openslessrc"))
    else
      Res.assertAbort (audioMakesTrace (env.makeOk "openslessrc"))
  else
    Res.assertAbort
      [Ev.newPipeline "pipeline-audio", Ev.factoryMake "openslessrc",
       Ev.factoryMake "audioconvert", Ev.factoryMake "speexenc",
       Ev.factoryMake "udpsink", Ev.debug "audio UDP sink is null: NOGO!"]

/-- Tail of `audio_start` after the build-once block: sets the destination
host then port 5001 on the audio udpsink and requests PLAYING; returns 1
on a non-FAILURE state-change return, else -1. -/
def audio_start_tail (env : Env) (ip : String) (s : AState) (tr : List Ev) : Res AState :=
  let s1 := { s with sinkHost := some ip }
  let s2 := { s1 with sinkPort := some 5001 }
  let s3 := { s2 with reqState := some GstState.playing }
  let tr1 := tr ++ [Ev.setProp "sink" "host" ip,
                    Ev.setProp "sink" "port" "5001",
                    Ev.setState "pipeline-audio" GstState.playing]
  if env.setStateOk "pipeline-audio" GstState.playing then
    Res.done 1 s3 (tr1 ++ [Ev.print "GO: Audio pipeline state set to playing.\n"])
  else
    Res.done (-1) s3 (tr1 ++ [Ev.print "NOGO: Failed to start up audio pipeline!\n"])

/-- `audio_start`: build-once block, then destination set and PLAYING
request. -/
def audio_start (env : Env) (arg : Addr) (s : AState) : Res AState :=
  let ip := remote_IP_string arg
  if s.first_time_audio then
    match audio_build env s with
    | Res.assertAbort tr => Res.assertAbort tr
    | Res.done r s1 tr =>
        if r = -1 then Res.done (-1) s1 tr
        else audio_start_tail env ip s1 tr
  else
    audio_start_tail env ip s []

/-! ## Dynamic pad handler -/

/-- `on_pad_added(element, pad, data)`: prints a note, fetches the
downstream element's static pad named "sink" and attempts to link the new
pad to it, checking neither the pad lookup nor the link result.
`sinkPadFound` models whether `gst_element_get_static_pad` returned
non-null; the pad-link attempt happens either way and its failure is not
reported anywhere. -/
def on_pad_added (sinkPadFound : Bool) (padName encoderName : String) : List Ev :=
  [Ev.print "Dynamic pad created, linking\n",
   Ev.getStaticPad encoderName "sink",
   Ev.padLink padName (if sinkPadFound then encoderName ++ ".sink" else "(null)")]

/-! ## Session context: bus callbacks, initialization, thread lifecycle -/

/-- The `CustomData` session context, reduced to the fields the claims
observe: the "already notified" flag and whether `main_loop` is non-null. -/
structure CustomData where
  initialized : Bool
  mainLoopLive : Bool
deriving DecidableEq, Repr

/-- `set_ui_message`: debug log then the `setMessage` callback into the
controller. -/
def set_ui_message (m : String) : List Ev :=
  [Ev.debug ("Setting message to: " ++ m), Ev.uiMessage m]

/-- `error_cb`: formats a human-readable message from the posting element
and the error, forwards it via `set_ui_message`, then forces the pipeline
owned by the session context to the NULL state. -/
def error_cb (srcName errMessage : String) : List Ev :=
  set_ui_message ("Error received from element " ++ srcName ++ ": " ++ errMessage) ++
    [Ev.setState "data-pipeline" GstState.null]

/-- Printable name of a GStreamer state
(`gst_element_state_get_name`). -/
def stateName : GstState → String
  | GstState.null => "NULL"
  | GstState.ready => "READY"
  | GstState.paused => "PAUSED"
  | GstState.playing => "PLAYING"

/-- `state_changed_cb`: forwards a message only when the event originated
from the top-level pipeline object. -/
def state_changed_cb (srcIsPipeline : Bool) (newState : GstState) : List Ev :=
  if srcIsPipeline then
    set_ui_message ("State changed to " ++ stateName newState)
  else
    []

/-- `check_initialization_complete`: when not yet notified and the main
loop exists, invokes the `onGStreamerInitialized` callback and then sets
the flag. -/
def check_initialization_complete (d : CustomData) : CustomData × List Ev :=
  if !d.initialized && d.mainLoopLive then
    ({ d with initialized := true },
     [Ev.debug "Initialization complete, notifying application.", Ev.onInitialized])
  else
    (d, [])

/-- Number of `onInitialized` callbacks in a trace. -/
def countOnInit (tr : List Ev) : Nat :=
  (tr.filter (fun e => e = Ev.onInitialized)).length

/-- Iterated `check_initialization_complete`: the session context after `n`
calls together with the total number of `onInitialized` callbacks
emitted. -/
def runChecks : Nat → CustomData → CustomData × Nat
  | 0, d => (d, 0)
  | n + 1, d =>
      let (d1, tr) := check_initialization_complete d
      let (d2, c) := runChecks n d1
      (d2, countOnInit tr + c)

/-! ## Background thread (`app_function`) and `gst_native_finalize` -/

/-- Part of `app_function` before `g_main_loop_run`: `parseError` models the
`gst_parse_launch` error out-parameter. On a parse error the function
reports it and returns without ever creating the main loop; otherwise it
creates the main loop and runs `check_initialization_complete`. The Bool
result tells whether the main loop was entered. -/
def app_function_setup (parseError : Option String) (d : CustomData) :
    CustomData × List Ev × Bool :=
  match parseError with
  | some e => (d, set_ui_message ("Unable to build pipeline: " ++ e), false)
  | none =>
      let d1 := { d with mainLoopLive := true }
      let (d2, tr) := check_initialization_complete d1
      (d2, tr, true)

/-- Part of `app_function` after `g_main_loop_run` returns: the main loop
is unreffed and nulled, the context released, and the session pipeline set
to NULL and unreffed. It invokes no controller callback. -/
def app_function_postloop (d : CustomData) : CustomData × List Ev :=
  ({ d with mainLoopLive := false }, [Ev.setState "data-pipeline" GstState.null])

/-- Resource-release tail of `gst_native_finalize`, everything after
`pthread_join` returns: delete the controller global reference, free the
context, clear the native field. -/
def finalize_release_events : List Ev :=
  [Ev.deleteGlobalRef, Ev.freeData, Ev.clearNativeField, Ev.debug "Done finalizing"]

/-- `gst_native_finalize`: returns immediately when no context is stored;
otherwise quits the main loop, joins the background thread, and only then
releases the session resources. -/
def gst_native_finalize (hasData : Bool) : List Ev :=
  if hasData then
    [Ev.debug "Quitting main loop...", Ev.quitMainLoop,
     Ev.debug "Waiting for thread to finish...", Ev.joinThread] ++
      finalize_release_events
  else
    []

/-- Linearization of a whole session around `finalize`: the background
thread's events (setup, the bus events `loopEvs` dispatched by the loop,
and the post-loop cleanup) all precede `pthread_join`'s return, by join
semantics; `finalize` then performs its release actions. `quitMainLoop`
is the signal that makes the loop exit. -/
def finalize_session_trace (parseError : Option String) (d : CustomData)
    (loopEvs : List Ev) : List Ev :=
  let (d1, setupTr, entered) := app_function_setup parseError d
  if entered then
    setupTr ++ loopEvs ++ [Ev.quitMainLoop] ++ (app_function_postloop d1).2 ++
      Ev.joinThread :: finalize_release_events
  else
    setupTr ++ [Ev.quitMainLoop] ++ Ev.joinThread :: finalize_release_events

/-! ## Sequences of native commands -/

/-- One raw wire address: the four bytes as passed to
`nativeStreamStart`. -/
structure RawAddr where
  r0 : Nat
  r1 : Nat
  r2 : Nat
  r3 : Nat
deriving DecidableEq, Repr

/-- Running a sequence of `gst_native_stream_start` calls; an assert abort
stops the sequence. -/
def runStreamStarts (env : Env) : List RawAddr → VState → Res VState
  | [], s => Res.done 0 s []
  | c :: rest, s =>
      match gst_native_stream_start env c.r0 c.r1 c.r2 c.r3 s with
      | Res.assertAbort tr => Res.assertAbort tr
      | Res.done _ s1 tr =>
          match runStreamStarts env rest s1 with
          | Res.assertAbort tr2 => Res.assertAbort (tr ++ tr2)
          | Res.done r s2 tr2 => Res.done r s2 (tr ++ tr2)

/-- All six video element factories produce elements. -/
def VideoMakesOk (env : Env) : Prop :=
  env.makeOk "ahcsrc" = true ∧ env.makeOk "queue" = true ∧
    env.makeOk "capsfilter" = true ∧ env.makeOk "videoconvert" = true ∧
    env.makeOk "openh264enc" = true ∧ env.makeOk "udpsink" = true

/-- All five video links succeed. -/
def VideoLinksOk (env : Env) : Prop :=
  env.linkOk "ahcsrc" "srcqueue" = true ∧
    env.linkOk "srcqueue" "capsfilter" = true ∧
    env.linkOk "capsfilter" "videoconvert" = true ∧
    env.linkOk "videoconvert" "encoder" = true ∧
    env.linkOk "encoder" "sink" = true

/-- All four audio element factories produce elements (primary source
included). -/
def AudioMakesOk (env : Env) : Prop :=
  env.makeOk "openslessrc" = true ∧ env.makeOk "audioconvert" = true ∧
    env.makeOk "speexenc" = true ∧ env.makeOk "udpsink" = true

/-- All three audio links succeed, for a given source element name. -/
def AudioLinksOk (env : Env) (srcName : String) : Prop :=
  env.linkOk srcName "audio-convert" = true ∧
    env.linkOk "audio-convert" "audio-encoder" = true ∧
    env.linkOk "audio-encoder" "sink" = true

/-- The trace of events a run emitted, whether it completed or assert
aborted. -/
def Res.trace {σ : Type} : Res σ → List Ev
  | Res.done _ _ tr => tr
  | Res.assertAbort tr => tr

/-- The final state of a completed run, `none` on assert abort. -/
def Res.endState {σ : Type} : Res σ → Option σ
  | Res.done _ s _ => some s
  | Res.assertAbort _ => none

/-- The return value of a completed run, `none` on assert abort. -/
def Res.retVal {σ : Type} : Res σ → Option Int
  | Res.done r _ _ => some r
  | Res.assertAbort _ => none

/-! ## Concrete engine oracles used to exercise the model -/

/-- Oracle in which every factory, link and state-change request
succeeds. -/
def envAllOk : Env :=
  ⟨fun _ => true, fun _ _ => true, fun _ _ => true⟩

/-- Oracle in which only the queue→capsfilter link fails. -/
def envQueueCapsLinkFail : Env :=
  ⟨fun _ => true, fun a b => !(a == "srcqueue" && b == "capsfilter"), fun _ _ => true⟩

/-- Oracle in which only the audioconvert→speexenc link fails. -/
def envAudioConvLinkFail : Env :=
  ⟨fun _ => true, fun a b => !(a == "audio-convert" && b == "audio-encoder"),
   fun _ _ => true⟩

/-- Oracle in which the primary audio capture source is unavailable. -/
def envNoOpenSLES : Env :=
  ⟨fun f => !(f == "openslessrc"), fun _ _ => true, fun _ _ => true⟩

/-- Oracle in which the udpsink factory fails. -/
def envNoUdpSink : Env :=
  ⟨fun f => !(f == "udpsink"), fun _ _ => true, fun _ _ => true⟩

/-- Oracle in which both audio capture sources are unavailable. -/
def envNoAudioSources : Env :=
  ⟨fun f => !(f == "openslessrc" || f == "audiotestsrc"), fun _ _ => true,
   fun _ _ => true⟩

/-- Oracle in which the audioconvert factory fails. -/
def envNoAudioConvert : Env :=
  ⟨fun f => !(f == "audioconvert"), fun _ _ => true, fun _ _ => true⟩

/-- Oracle in which the speexenc factory fails. -/
def envNoSpeex : Env :=
  ⟨fun f => !(f == "speexenc"), fun _ _ => true, fun _ _ => true⟩

/-! ## Helper lemmas -/

theorem runLinks_all_ok (env : Env) (ls : List LinkSpec)
    (h : ∀ l ∈ ls, env.linkOk l.src l.dst = true) :
    runLinks env ls = (ls.map (fun l => (l.src, l.dst)), okLinksTrace ls, true) := by
  induction ls with
  | nil => rfl
  | cons l rest ih =>
      have hl := h l (List.mem_cons_self l rest)
      have hrest := ih (fun x hx => h x (List.mem_cons_of_mem _ hx))
      simp only [runLinks, hl, if_true, hrest, okLinksTrace, List.map_cons]

theorem runLinks_fail_at (env : Env) (pre : List LinkSpec) (l : LinkSpec)
    (post : List LinkSpec)
    (hpre : ∀ x ∈ pre, env.linkOk x.src x.dst = true)
    (hl : env.linkOk l.src l.dst = false) :
    runLinks env (pre ++ l :: post) =
      (pre.map (fun x => (x.src, x.dst)),
       okLinksTrace pre ++ [Ev.linkAttempt l.src l.dst, Ev.debug l.failMsg],
       false) := by
  induction pre with
  | nil => simp [runLinks, hl, okLinksTrace]
  | cons p rest ih =>
      have hp := hpre p (List.mem_cons_self p rest)
      have hrest := ih (fun x hx => hpre x (List.mem_cons_of_mem _ hx))
      simp only [List.cons_append, runLinks, hp, if_true, okLinksTrace,
        List.map_cons]
      simp [List.append_eq, hrest]

theorem linkAttempts_okLinksTrace (ls : List LinkSpec) :
    linkAttempts (okLinksTrace ls) = ls.map (fun l => (l.src, l.dst)) := by
  induction ls with
  | nil => rfl
  | cons l rest ih =>
      simp only [okLinksTrace, linkAttempts, List.filterMap_cons] at ih ⊢
      simp [ih]

theorem linkAttempts_append (tr1 tr2 : List Ev) :
    linkAttempts (tr1 ++ tr2) = linkAttempts tr1 ++ linkAttempts tr2 := by
  simp [linkAttempts, List.filterMap_append]

theorem runLinks_trace_mem (env : Env) (ls : List LinkSpec) :
    ∀ e ∈ (runLinks env ls).2.1, e.isCallback = false ∧ e.isPadLink = false := by
  induction ls with
  | nil => intro e he; simp [runLinks] at he
  | cons l rest ih =>
      intro e he
      simp only [runLinks] at he
      cases h : env.linkOk l.src l.dst with
      | false =>
          rw [h] at he
          simp only [Bool.false_eq_true, if_false, List.mem_cons, List.mem_singleton,
            List.not_mem_nil, or_false] at he
          rcases he with rfl | rfl <;> exact ⟨rfl, rfl⟩
      | true =>
          rw [h] at he
          simp only [if_true, List.mem_cons] at he
          rcases he with rfl | rfl | he
          · exact ⟨rfl, rfl⟩
          · exact ⟨rfl, rfl⟩
          · exact ih e he

theorem runLinks_filter_callback (env : Env) (ls : List LinkSpec) :
    (runLinks env ls).2.1.filter Ev.isCallback = [] := by
  rw [List.filter_eq_nil_iff]
  intro e he
  simp [(runLinks_trace_mem env ls e he).1]

theorem runLinks_filter_padLink (env : Env) (ls : List LinkSpec) :
    (runLinks env ls).2.1.filter Ev.isPadLink = [] := by
  rw [List.filter_eq_nil_iff]
  intro e he
  simp [(runLinks_trace_mem env ls e he).2]

theorem video_build_trace_filter (env : Env) (s : VState) :
    (video_build env s).trace.filter Ev.isCallback = [] ∧
    (video_build env s).trace.filter Ev.isPadLink = [] := by
  unfold video_build
  cases h1 : env.makeOk "ahcsrc"
  · exact ⟨rfl, rfl⟩
  cases h2 : env.makeOk "queue"
  · exact ⟨rfl, rfl⟩
  cases h3 : env.makeOk "capsfilter"
  · exact ⟨rfl, rfl⟩
  cases h4 : env.makeOk "videoconvert"
  · exact ⟨rfl, rfl⟩
  cases h5 : env.makeOk "openh264enc"
  · exact ⟨rfl, rfl⟩
  cases h6 : env.makeOk "udpsink"
  · exact ⟨rfl, rfl⟩
  rcases hr : runLinks env videoLinkSpecs with ⟨nl, ltr, ok⟩
  have hcb := runLinks_filter_callback env videoLinkSpecs
  have hpl := runLinks_filter_padLink env videoLinkSpecs
  rw [hr] at hcb hpl
  dsimp only at hcb hpl
  cases ok <;>
    simp [Res.trace, List.filter_append, hcb, hpl, videoMakesTrace, videoStages,
      Ev.isCallback, Ev.isPadLink]

theorem audio_build_trace_filter (env : Env) (s : AState) :
    (audio_build env s).trace.filter Ev.isCallback = [] ∧
    (audio_build env s).trace.filter Ev.isPadLink = [] := by
  unfold audio_build
  have hmk : ∀ b : Bool, (audioMakesTrace b).filter Ev.isCallback = [] ∧
      (audioMakesTrace b).filter Ev.isPadLink = [] := by
    intro b; cases b <;> exact ⟨rfl, rfl⟩
  cases h1 : env.makeOk "udpsink"
  · exact ⟨rfl, rfl⟩
  cases h2 : env.makeOk "openslessrc" || env.makeOk "audiotestsrc"
  · simpa [Res.trace] using hmk (env.makeOk "openslessrc")
  cases h3 : env.makeOk "audioconvert"
  · simpa [Res.trace] using hmk (env.makeOk "openslessrc")
  cases h4 : env.makeOk "speexenc"
  · simpa [Res.trace] using hmk (env.makeOk "openslessrc")
  rcases hr : runLinks env
      (audioLinkSpecs (if env.makeOk "openslessrc" then "audiosource" else "audiotestsrc"))
    with ⟨nl, ltr, ok⟩
  have hcb := runLinks_filter_callback env
    (audioLinkSpecs (if env.makeOk "openslessrc" then "audiosource" else "audiotestsrc"))
  have hpl := runLinks_filter_padLink env
    (audioLinkSpecs (if env.makeOk "openslessrc" then "audiosource" else "audiotestsrc"))
  rw [hr] at hcb hpl
  dsimp only at hcb hpl
  cases ok <;>
    simp [Res.trace, hr, List.filter_append, hcb, hpl, (hmk (env.makeOk "openslessrc")).1,
      (hmk (env.makeOk "openslessrc")).2, Ev.isCallback, Ev.isPadLink]

theorem video_build_ok (env : Env) (s : VState)
    (hm : VideoMakesOk env) (hl : VideoLinksOk env) :
    video_build env s =
      Res.done 0
        { s with first_time_video := false,
                 stages := s.stages ++ videoStages,
                 links := s.links ++ videoLinkSpecs.map (fun l => (l.src, l.dst)) }
        (videoMakesTrace ++ okLinksTrace videoLinkSpecs) := by
  obtain ⟨m1, m2, m3, m4, m5, m6⟩ := hm
  obtain ⟨l1, l2, l3, l4, l5⟩ := hl
  have hr : runLinks env videoLinkSpecs =
      (videoLinkSpecs.map (fun l => (l.src, l.dst)), okLinksTrace videoLinkSpecs, true) := by
    apply runLinks_all_ok
    intro l hmem
    fin_cases hmem <;> assumption
  unfold video_build
  rw [m1, m2, m3, m4, m5, m6, hr]
  rfl

theorem video_build_fail (env : Env) (s : VState) (hm : VideoMakesOk env)
    (pre : List LinkSpec) (l : LinkSpec) (post : List LinkSpec)
    (hsplit : videoLinkSpecs = pre ++ l :: post)
    (hpre : ∀ x ∈ pre, env.linkOk x.src x.dst = true)
    (hl : env.linkOk l.src l.dst = false) :
    video_build env s =
      Res.done (-1)
        { s with stages := s.stages ++ videoStages,
                 links := s.links ++ pre.map (fun x => (x.src, x.dst)) }
        (videoMakesTrace ++
          (okLinksTrace pre ++ [Ev.linkAttempt l.src l.dst, Ev.debug l.failMsg])) := by
  obtain ⟨m1, m2, m3, m4, m5, m6⟩ := hm
  have hr := runLinks_fail_at env pre l post hpre hl
  rw [← hsplit] at hr
  unfold video_build
  rw [m1, m2, m3, m4, m5, m6, hr]
  rfl

theorem video_start_tail_eq (env : Env) (ip : String) (s : VState) (tr : List Ev) :
    video_start_tail env ip s tr =
      if env.setStateOk "pipeline" GstState.playing then
        Res.done 0
          { s with sinkPort := some 5000, sinkHost := some ip,
                   reqState := some GstState.playing, video_running := true }
          ((tr ++ [Ev.setProp "sink" "port" "5000", Ev.setProp "sink" "host" ip,
                   Ev.setState "pipeline" GstState.playing]) ++
            [Ev.print "Video pipeline state set to playing: OK\n"])
      else
        Res.done (-1)
          { s with sinkPort := some 5000, sinkHost := some ip,
                   reqState := some GstState.playing }
          ((tr ++ [Ev.setProp "sink" "port" "5000", Ev.setProp "sink" "host" ip,
                   Ev.setState "pipeline" GstState.playing]) ++
            [Ev.debug "Failed to start up video pipeline!\n"]) := rfl

theorem video_start_built (env : Env) (a : Addr) (s : VState)
    (h : s.first_time_video = false) :
    video_start env a s = video_start_tail env (remote_IP_string a) s [] := by
  unfold video_start
  rw [h]
  rfl

theorem video_start_first (env : Env) (a : Addr) (s : VState)
    (h : s.first_time_video = true) (hm : VideoMakesOk env) (hl : VideoLinksOk env) :
    video_start env a s =
      video_start_tail env (remote_IP_string a)
        { s with first_time_video := false, stages := s.stages ++ videoStages,
                 links := s.links ++ videoLinkSpecs.map (fun l => (l.src, l.dst)) }
        (videoMakesTrace ++ okLinksTrace videoLinkSpecs) := by
  unfold video_start
  rw [h, video_build_ok env s hm hl]
  rfl

theorem video_start_tail_trace_filter (env : Env) (ip : String) (s : VState) (tr : List Ev) :
    (video_start_tail env ip s tr).trace.filter Ev.isCallback = tr.filter Ev.isCallback ∧
    (video_start_tail env ip s tr).trace.filter Ev.isPadLink = tr.filter Ev.isPadLink := by
  unfold video_start_tail
  split_ifs <;> constructor <;>
    simp [Res.trace, List.filter_append, Ev.isCallback, Ev.isPadLink]

theorem audio_build_ok_primary (env : Env) (s : AState)
    (hm : AudioMakesOk env) (hl : AudioLinksOk env "audiosource") :
    audio_build env s =
      Res.done 0
        { s with first_time_audio := false, sourceName := some "audiosource",
                 stages := s.stages ++ audioStages "audiosource",
                 links := s.links ++ (audioLinkSpecs "audiosource").map (fun l => (l.src, l.dst)) }
        (audioMakesTrace true ++
          Ev.binAdd "pipeline-audio" (audioStages "audiosource") ::
            okLinksTrace (audioLinkSpecs "audiosource")) := by
  obtain ⟨m1, m2, m3, m4⟩ := hm
  obtain ⟨la1, la2, la3⟩ := hl
  have hr : runLinks env (audioLinkSpecs
        (if env.makeOk "openslessrc" then "audiosource" else "audiotestsrc")) =
      ((audioLinkSpecs "audiosource").map (fun l => (l.src, l.dst)),
       okLinksTrace (audioLinkSpecs "audiosource"), true) := by
    rw [m1]
    apply runLinks_all_ok
    intro l hmem
    fin_cases hmem <;> assumption
  unfold audio_build
  rw [m4, hr, m1, m2, m3]
  rfl

theorem audio_build_ok_fallback (env : Env) (s : AState)
    (h1 : env.makeOk "openslessrc" = false) (ht : env.makeOk "audiotestsrc" = true)
    (m2 : env.makeOk "audioconvert" = true) (m3 : env.makeOk "speexenc" = true)
    (m4 : env.makeOk "udpsink" = true)
    (hl : AudioLinksOk env "audiotestsrc") :
    audio_build env s =
      Res.done 0
        { s with first_time_audio := false, sourceName := some "audiotestsrc",
                 stages := s.stages ++ audioStages "audiotestsrc",
                 links := s.links ++ (audioLinkSpecs "audiotestsrc").map (fun l => (l.src, l.dst)) }
        (audioMakesTrace false ++
          Ev.binAdd "pipeline-audio" (audioStages "audiotestsrc") ::
            okLinksTrace (audioLinkSpecs "audiotestsrc")) := by
  obtain ⟨la1, la2, la3⟩ := hl
  have hr : runLinks env (audioLinkSpecs
        (if env.makeOk "openslessrc" then "audiosource" else "audiotestsrc")) =
      ((audioLinkSpecs "audiotestsrc").map (fun l => (l.src, l.dst)),
       okLinksTrace (audioLinkSpecs "audiotestsrc"), true) := by
    rw [h1]
    apply runLinks_all_ok
    intro l hmem
    fin_cases hmem <;> assumption
  unfold audio_build
  rw [m4, hr, h1, ht, m2, m3]
  rfl

theorem audio_build_fail (env : Env) (s : AState) (hm : AudioMakesOk env)
    (pre : List LinkSpec) (l : LinkSpec) (post : List LinkSpec)
    (hsplit : audioLinkSpecs "audiosource" = pre ++ l :: post)
    (hpre : ∀ x ∈ pre, env.linkOk x.src x.dst = true)
    (hl : env.linkOk l.src l.dst = false) :
    audio_build env s =
      Res.done (-1)
        { s with sourceName := some "audiosource",
                 stages := s.stages ++ audioStages "audiosource",
                 links := s.links ++ pre.map (fun x => (x.src, x.dst)) }
        (audioMakesTrace true ++
          Ev.binAdd "pipeline-audio" (audioStages "audiosource") ::
            (okLinksTrace pre ++ [Ev.linkAttempt l.src l.dst, Ev.debug l.failMsg])) := by
  obtain ⟨m1, m2, m3, m4⟩ := hm
  have hr : runLinks env (audioLinkSpecs
        (if env.makeOk "openslessrc" then "audiosource" else "audiotestsrc")) =
      (pre.map (fun x => (x.src, x.dst)),
       okLinksTrace pre ++ [Ev.linkAttempt l.src l.dst, Ev.debug l.failMsg], false) := by
    rw [m1]
    have := runLinks_fail_at env pre l post hpre hl
    rw [← hsplit] at this
    exact this
  unfold audio_build
  rw [m4, hr, m1, m2, m3]
  rfl

theorem audio_build_abort_sink (env : Env) (s : AState)
    (h : env.makeOk "udpsink" = false) :
    audio_build env s =
      Res.assertAbort
        [Ev.newPipeline "pipeline-audio", Ev.factoryMake "openslessrc",
         Ev.factoryMake "audioconvert", Ev.factoryMake "speexenc",
         Ev.factoryMake "udpsink", Ev.debug "audio UDP sink is null: NOGO!"] := by
  unfold audio_build
  rw [h]
  rfl

theorem audio_build_abort_source (env : Env) (s : AState)
    (m4 : env.makeOk "udpsink" = true) (h1 : env.makeOk "openslessrc" = false)
    (ht : env.makeOk "audiotestsrc" = false) :
    audio_build env s = Res.assertAbort (audioMakesTrace false) := by
  unfold audio_build
  rw [m4, h1, ht]
  rfl

theorem audio_build_abort_convert (env : Env) (s : AState)
    (m4 : env.makeOk "udpsink" = true)
    (hsrc : (env.makeOk "openslessrc" || env.makeOk "audiotestsrc") = true)
    (h2 : env.makeOk "audioconvert" = false) :
    audio_build env s = Res.assertAbort (audioMakesTrace (env.makeOk "openslessrc")) := by
  unfold audio_build
  rw [m4, hsrc, h2]
  rfl

theorem audio_build_abort_speex (env : Env) (s : AState)
    (m4 : env.makeOk "udpsink" = true)
    (hsrc : (env.makeOk "openslessrc" || env.makeOk "audiotestsrc") = true)
    (m2 : env.makeOk "audioconvert" = true) (h3 : env.makeOk "speexenc" = false) :
    audio_build env s = Res.assertAbort (audioMakesTrace (env.makeOk "openslessrc")) := by
  unfold audio_build
  rw [m4, hsrc, m2, h3]
  rfl

theorem audio_start_tail_eq (env : Env) (ip : String) (s : AState) (tr : List Ev) :
    audio_start_tail env ip s tr =
      if env.setStateOk "pipeline-audio" GstState.playing then
        Res.done 1
          { s with sinkHost := some ip, sinkPort := some 5001,
                   reqState := some GstState.playing }
          ((tr ++ [Ev.setProp "sink" "host" ip, Ev.setProp "sink" "port" "5001",
                   Ev.setState "pipeline-audio" GstState.playing]) ++
            [Ev.print "GO: Audio pipeline state set to playing.\n"])
      else
        Res.done (-1)
          { s with sinkHost := some ip, sinkPort := some 5001,
                   reqState := some GstState.playing }
          ((tr ++ [Ev.setProp "sink" "host" ip, Ev.setProp "sink" "port" "5001",
                   Ev.setState "pipeline-audio" GstState.playing]) ++
            [Ev.print "NOGO: Failed to start up audio pipeline!\n"]) := rfl

theorem audio_start_built (env : Env) (a : Addr) (s : AState)
    (h : s.first_time_audio = false) :
    audio_start env a s = audio_start_tail env (remote_IP_string a) s [] := by
  unfold audio_start
  rw [h]
  rfl

theorem audio_start_first_primary (env : Env) (a : Addr) (s : AState)
    (h : s.first_time_audio = true)
    (hm : AudioMakesOk env) (hl : AudioLinksOk env "audiosource") :
    audio_start env a s =
      audio_start_tail env (remote_IP_string a)
        { s with first_time_audio := false, sourceName := some "audiosource",
                 stages := s.stages ++ audioStages "audiosource",
                 links := s.links ++ (audioLinkSpecs "audiosource").map (fun l => (l.src, l.dst)) }
        (audioMakesTrace true ++
          Ev.binAdd "pipeline-audio" (audioStages "audiosource") ::
            okLinksTrace (audioLinkSpecs "audiosource")) := by
  unfold audio_start
  rw [h, audio_build_ok_primary env s hm hl]
  rfl

theorem audio_start_first_fallback (env : Env) (a : Addr) (s : AState)
    (h : s.first_time_audio = true)
    (h1 : env.makeOk "openslessrc" = false) (ht : env.makeOk "audiotestsrc" = true)
    (m2 : env.makeOk "audioconvert" = true) (m3 : env.makeOk "speexenc" = true)
    (m4 : env.makeOk "udpsink" = true)
    (hl : AudioLinksOk env "audiotestsrc") :
    audio_start env a s =
      audio_start_tail env (remote_IP_string a)
        { s with first_time_audio := false, sourceName := some "audiotestsrc",
                 stages := s.stages ++ audioStages "audiotestsrc",
                 links := s.links ++ (audioLinkSpecs "audiotestsrc").map (fun l => (l.src, l.dst)) }
        (audioMakesTrace false ++
          Ev.binAdd "pipeline-audio" (audioStages "audiotestsrc") ::
            okLinksTrace (audioLinkSpecs "audiotestsrc")) := by
  unfold audio_start
  rw [h, audio_build_ok_fallback env s h1 ht m2 m3 m4 hl]
  rfl

theorem audio_start_tail_trace_filter (env : Env) (ip : String) (s : AState) (tr : List Ev) :
    (audio_start_tail env ip s tr).trace.filter Ev.isCallback = tr.filter Ev.isCallback ∧
    (audio_start_tail env ip s tr).trace.filter Ev.isPadLink = tr.filter Ev.isPadLink := by
  unfold audio_start_tail
  split_ifs <;> constructor <;>
    simp [Res.trace, List.filter_append, Ev.isCallback, Ev.isPadLink]

theorem video_start_trace_filter (env : Env) (a : Addr) (s : VState) :
    (video_start env a s).trace.filter Ev.isCallback = [] ∧
    (video_start env a s).trace.filter Ev.isPadLink = [] := by
  unfold video_start
  cases h : s.first_time_video with
  | false =>
      simp only [h, Bool.false_eq_true, if_false]
      have ht := video_start_tail_trace_filter env (remote_IP_string a) s []
      simpa using ht
  | true =>
      simp only [h, if_true]
      cases hb : video_build env s with
      | assertAbort tr =>
          have hf := video_build_trace_filter env s
          rw [hb] at hf
          exact hf
      | done r s1 tr =>
          dsimp only
          have hf := video_build_trace_filter env s
          rw [hb] at hf
          simp only [Res.trace] at hf
          by_cases hr : r = -1
          · simpa [hr, Res.trace] using hf
          · rw [if_neg hr]
            have ht := video_start_tail_trace_filter env (remote_IP_string a) s1 tr
            exact ⟨ht.1.trans hf.1, ht.2.trans hf.2⟩

theorem audio_start_trace_filter (env : Env) (a : Addr) (s : AState) :
    (audio_start env a s).trace.filter Ev.isCallback = [] ∧
    (audio_start env a s).trace.filter Ev.isPadLink = [] := by
  unfold audio_start
  cases h : s.first_time_audio with
  | false =>
      simp only [h, Bool.false_eq_true, if_false]
      have ht := audio_start_tail_trace_filter env (remote_IP_string a) s []
      simpa using ht
  | true =>
      simp only [h, if_true]
      cases hb : audio_build env s with
      | assertAbort tr =>
          have hf := audio_build_trace_filter env s
          rw [hb] at hf
          exact hf
      | done r s1 tr =>
          dsimp only
          have hf := audio_build_trace_filter env s
          rw [hb] at hf
          simp only [Res.trace] at hf
          by_cases hr : r = -1
          · simpa [hr, Res.trace] using hf
          · rw [if_neg hr]
            have ht := audio_start_tail_trace_filter env (remote_IP_string a) s1 tr
            exact ⟨ht.1.trans hf.1, ht.2.trans hf.2⟩

theorem runChecks_of_initialized (n : Nat) (d : CustomData) (h : d.initialized = true) :
    runChecks n d = (d, 0) := by
  induction n with
  | zero => rfl
  | succ n ih =>
      simp only [runChecks, check_initialization_complete, h]
      simp [countOnInit, ih]

theorem runChecks_le_one (n : Nat) (d : CustomData) : (runChecks n d).2 ≤ 1 := by
  induction n generalizing d with
  | zero => simp [runChecks]
  | succ n ih =>
      by_cases h : (!d.initialized && d.mainLoopLive) = true
      · simp [runChecks, check_initialization_complete, h, countOnInit,
          runChecks_of_initialized n { d with initialized := true } rfl]
      · simp only [runChecks, check_initialization_complete, h, if_false]
        simpa [countOnInit] using ih d

theorem runChecks_fresh_once (n : Nat) :
    (runChecks (n + 1) ⟨false, true⟩).2 = 1 := by
  simp [runChecks, check_initialization_complete, countOnInit,
    runChecks_of_initialized n ⟨true, true⟩ rfl]

theorem countOnInit_zero {tr : List Ev} (h : tr.filter Ev.isCallback = []) :
    countOnInit tr = 0 := by
  unfold countOnInit
  have hnil : tr.filter (fun e => e = Ev.onInitialized) = [] := by
    rw [List.filter_eq_nil_iff]
    intro e he hdec
    have he2 : e = Ev.onInitialized := by simpa using hdec
    have hcb := List.filter_eq_nil_iff.mp h e he
    rw [he2] at hcb
    exact hcb rfl
  rw [hnil]
  rfl

theorem video_start_done_spec (env : Env) (a : Addr) (s : VState)
    (h : s.first_time_video = false ∨ (VideoMakesOk env ∧ VideoLinksOk env)) :
    ∃ r s1 tr, video_start env a s = Res.done r s1 tr ∧
      s1.sinkHost = some (remote_IP_string a) ∧ s1.sinkPort = some 5000 ∧
      s1.first_time_video = false ∧ s1.reqState = some GstState.playing ∧
      (s.first_time_video = false → s1.stages = s.stages ∧ s1.links = s.links ∧
        tr.filter Ev.isFactoryMake = [] ∧ tr.filter Ev.isLinkAttempt = []) ∧
      (s.first_time_video = true → s1.stages = s.stages ++ videoStages ∧
        s1.links = s.links ++ videoLinkSpecs.map (fun l => (l.src, l.dst))) ∧
      (env.setStateOk "pipeline" GstState.playing = true → r = 0) ∧
      ∃ t1 t2, tr = t1 ++ Ev.setState "pipeline" GstState.playing :: t2 ∧
        t1.filter Ev.isSetState = [] ∧
        Ev.setProp "sink" "host" (remote_IP_string a) ∈ t1 ∧
        Ev.setProp "sink" "port" "5000" ∈ t1 := by
  cases hft : s.first_time_video
  · rw [video_start_built env a s hft, video_start_tail_eq]
    cases hss : env.setStateOk "pipeline" GstState.playing
    · refine ⟨-1, _, _, rfl, rfl, rfl, hft, rfl, ?_, ?_, ?_,
        [Ev.setProp "sink" "port" "5000", Ev.setProp "sink" "host" (remote_IP_string a)],
        [Ev.debug "Failed to start up video pipeline!\n"], rfl, rfl, by simp, by simp⟩
      · exact fun _ => ⟨rfl, rfl, rfl, rfl⟩
      · intro hcon; cases hcon
      · intro hcon; cases hcon
    · refine ⟨0, _, _, rfl, rfl, rfl, hft, rfl, ?_, ?_, fun _ => rfl,
        [Ev.setProp "sink" "port" "5000", Ev.setProp "sink" "host" (remote_IP_string a)],
        [Ev.print "Video pipeline state set to playing: OK\n"], rfl, rfl, by simp, by simp⟩
      · exact fun _ => ⟨rfl, rfl, rfl, rfl⟩
      · intro hcon; cases hcon
  · obtain ⟨hm, hl⟩ : VideoMakesOk env ∧ VideoLinksOk env := by
      rcases h with hf | hml
      · rw [hft] at hf; cases hf
      · exact hml
    rw [video_start_first env a s hft hm hl, video_start_tail_eq]
    cases hss : env.setStateOk "pipeline" GstState.playing
    · refine ⟨-1, _, _, rfl, rfl, rfl, rfl, rfl, ?_, fun _ => ⟨rfl, rfl⟩, ?_,
        (videoMakesTrace ++ okLinksTrace videoLinkSpecs) ++
          [Ev.setProp "sink" "port" "5000", Ev.setProp "sink" "host" (remote_IP_string a)],
        [Ev.debug "Failed to start up video pipeline!\n"], by simp, rfl, by simp, by simp⟩
      · intro hcon; cases hcon
      · intro hcon; cases hcon
    · refine ⟨0, _, _, rfl, rfl, rfl, rfl, rfl, ?_, fun _ => ⟨rfl, rfl⟩, fun _ => rfl,
        (videoMakesTrace ++ okLinksTrace videoLinkSpecs) ++
          [Ev.setProp "sink" "port" "5000", Ev.setProp "sink" "host" (remote_IP_string a)],
        [Ev.print "Video pipeline state set to playing: OK\n"], by simp, rfl, by simp, by simp⟩
      intro hcon; cases hcon

theorem audio_start_done_spec (env : Env) (a : Addr) (s : AState)
    (h : s.first_time_audio = false ∨
      (AudioMakesOk env ∧ AudioLinksOk env "audiosource")) :
    ∃ r s1 tr, audio_start env a s = Res.done r s1 tr ∧
      s1.sinkHost = some (remote_IP_string a) ∧ s1.sinkPort = some 5001 ∧
      s1.first_time_audio = false ∧
      (s.first_time_audio = false → s1.stages = s.stages ∧ s1.links = s.links ∧
        tr.filter Ev.isFactoryMake = [] ∧ tr.filter Ev.isLinkAttempt = []) ∧
      (s.first_time_audio = true →
        s1.stages = s.stages ++ audioStages "audiosource") := by
  cases hft : s.first_time_audio
  · rw [audio_start_built env a s hft, audio_start_tail_eq]
    cases hss : env.setStateOk "pipeline-audio" GstState.playing
    · exact ⟨-1, _, _, rfl, rfl, rfl, hft, fun _ => ⟨rfl, rfl, rfl, rfl⟩,
        fun hcon => nomatch hcon⟩
    · exact ⟨1, _, _, rfl, rfl, rfl, hft, fun _ => ⟨rfl, rfl, rfl, rfl⟩,
        fun hcon => nomatch hcon⟩
  · obtain ⟨hm, hl⟩ : AudioMakesOk env ∧ AudioLinksOk env "audiosource" := by
      rcases h with hf | hml
      · rw [hft] at hf; cases hf
      · exact hml
    rw [audio_start_first_primary env a s hft hm hl, audio_start_tail_eq]
    cases hss : env.setStateOk "pipeline-audio" GstState.playing
    · refine ⟨-1, _, _, rfl, rfl, rfl, rfl, ?_, fun _ => rfl⟩
      intro hcon; exact absurd hcon (by decide)
    · refine ⟨1, _, _, rfl, rfl, rfl, rfl, ?_, fun _ => rfl⟩
      intro hcon; exact absurd hcon (by decide)

theorem stream_start_done_spec (env : Env) (s : VState) (b0 b1 b2 b3 : Nat)
    (h : s.first_time_video = false ∨ (VideoMakesOk env ∧ VideoLinksOk env)) :
    ∃ r s1 tr, gst_native_stream_start env b0 b1 b2 b3 s = Res.done r s1 tr ∧
      s1.sinkHost = some (remote_IP_string (decodeAddr b0 b1 b2 b3)) ∧
      s1.sinkPort = some 5000 ∧ s1.first_time_video = false ∧
      ∃ t1 t2, tr = t1 ++ Ev.setState "pipeline" GstState.playing :: t2 ∧
        t1.filter Ev.isSetState = [] ∧
        Ev.setProp "sink" "host" (remote_IP_string (decodeAddr b0 b1 b2 b3)) ∈ t1 ∧
        Ev.setProp "sink" "port" "5000" ∈ t1 := by
  obtain ⟨r, s1, tr, heq, hh, hp, hf, _, _, _, _, t1, t2, htr, hfl, hm1, hm2⟩ :=
    video_start_done_spec env (decodeAddr b0 b1 b2 b3) s h
  have hgs : gst_native_stream_start env b0 b1 b2 b3 s =
      Res.done 0 s1
        (Ev.print ("receiver IP: " ++ remote_IP_string (decodeAddr b0 b1 b2 b3) ++ "\n") ::
          tr ++ [Ev.print ("stream_start: " ++ (if r > 0 then "OK" else "NOT OK") ++ "\n"),
                 Ev.debug "my pipeline streaming started"]) := by
    unfold gst_native_stream_start
    rw [heq]
  refine ⟨0, s1, _, hgs, hh, hp, hf,
    Ev.print ("receiver IP: " ++ remote_IP_string (decodeAddr b0 b1 b2 b3) ++ "\n") :: t1,
    t2 ++ [Ev.print ("stream_start: " ++ (if r > 0 then "OK" else "NOT OK") ++ "\n"),
           Ev.debug "my pipeline streaming started"], ?_, ?_,
    List.mem_cons_of_mem _ hm1, List.mem_cons_of_mem _ hm2⟩
  · rw [htr]; simp
  · simp [List.filter_cons, hfl, Ev.isSetState]

theorem runStreamStarts_last (env : Env) (hm : VideoMakesOk env)
    (hl : VideoLinksOk env) (pre : List RawAddr) (c : RawAddr) (init : VState) :
    ∃ r s1 tr, runStreamStarts env (pre ++ [c]) init = Res.done r s1 tr ∧
      s1.sinkHost = some (remote_IP_string (decodeAddr c.r0 c.r1 c.r2 c.r3)) ∧
      s1.sinkPort = some 5000 := by
  induction pre generalizing init with
  | nil =>
      obtain ⟨r, s1, tr, heq, hh, hp, -⟩ :=
        stream_start_done_spec env init c.r0 c.r1 c.r2 c.r3 (Or.inr ⟨hm, hl⟩)
      exact ⟨0, s1, tr ++ [], by simp [runStreamStarts, heq], hh, hp⟩
  | cons x rest ih =>
      obtain ⟨r, s1, tr, heq, -, -, -, -⟩ :=
        stream_start_done_spec env init x.r0 x.r1 x.r2 x.r3 (Or.inr ⟨hm, hl⟩)
      obtain ⟨r2, s2, tr2, heq2, hh2, hp2⟩ := ih s1
      refine ⟨r2, s2, tr ++ tr2, ?_, hh2, hp2⟩
      simp only [List.cons_append, runStreamStarts, heq, List.append_eq, heq2]

/-- C3: every stop call — `video_stop` (behind `streamStop`) and the
analogous `audio_stop` — issues exactly two state-transition requests in
order, PAUSED first and then NULL (idle), and leaves the tracked pipeline
state at NULL (idle), never playing or paused, regardless of the
pipeline's state before the call. -/
theorem stop_requests_paused_then_null (sv : VState) (sa : AState) :
    (video_stop sv).trace.filter Ev.isSetState =
      [Ev.setState "pipeline" GstState.paused, Ev.setState "pipeline" GstState.null] ∧
    (video_stop sv).endState =
      some { sv with reqState := some GstState.null, video_running := false } ∧
    (audio_stop sa).trace.filter Ev.isSetState =
      [Ev.setState "pipeline-audio" GstState.paused,
       Ev.setState "pipeline-audio" GstState.null] ∧
    (audio_stop sa).endState = some { sa with reqState := some GstState.null } ∧
    (gst_native_stream_stop sv).trace.filter Ev.isSetState =
      [Ev.setState "pipeline" GstState.paused, Ev.setState "pipeline" GstState.null] ∧
    (gst_native_stream_stop sv).endState =
      some { sv with reqState := some GstState.null, video_running := false } :=
  ⟨rfl, rfl, rfl, rfl, rfl, rfl⟩

/-- C4: the `onInitialized` notification is invoked exactly when the event
loop handle is non-null and the "already notified" flag is still false;
the flag is true immediately afterwards and is never cleared by the check;
iterating the check any number of times fires at most once (exactly once
from a fresh context with a live loop); and no bus event handler or
pipeline build ever emits the notification. -/
theorem onInitialized_fires_once (d : CustomData) (n : Nat) (env : Env)
    (a : Addr) (sv : VState) (sa : AState) (src msg : String) (b : Bool)
    (st : GstState) :
    (countOnInit (check_initialization_complete d).2 =
      if !d.initialized && d.mainLoopLive then 1 else 0) ∧
    ((check_initialization_complete d).1.initialized =
      (d.initialized || d.mainLoopLive)) ∧
    ((check_initialization_complete d).1.mainLoopLive = d.mainLoopLive) ∧
    (runChecks n d).2 ≤ 1 ∧
    (runChecks (n + 1) ⟨false, true⟩).2 = 1 ∧
    countOnInit (error_cb src msg) = 0 ∧
    countOnInit (state_changed_cb b st) = 0 ∧
    countOnInit (video_start env a sv).trace = 0 ∧
    countOnInit (audio_start env a sa).trace = 0 := by
  refine ⟨?_, ?_, ?_, runChecks_le_one n d, runChecks_fresh_once n, ?_, ?_,
    countOnInit_zero (video_start_trace_filter env a sv).1,
    countOnInit_zero (audio_start_trace_filter env a sa).1⟩
  · rcases d with ⟨di, dm⟩
    cases di <;> cases dm <;> simp [check_initialization_complete, countOnInit]
  · rcases d with ⟨di, dm⟩
    cases di <;> cases dm <;> simp [check_initialization_complete]
  · rcases d with ⟨di, dm⟩
    cases di <;> cases dm <;> simp [check_initialization_complete]
  · rfl
  · cases b <;> rfl

/-- C5: on a runtime error event the handler forwards a human-readable
message naming the posting element to the controller and then forces the
session's pipeline to NULL; its trace contains exactly that one
state-change request — no PLAYING request, no element creation, no link
attempt (no rebuild, no restart) — and neither the state-changed handler
nor the initialization check ever issues a state-change request, so this
is the only automatic recovery action. -/
theorem error_cb_forces_null (src msg : String) (b : Bool) (st : GstState)
    (d : CustomData) :
    error_cb src msg =
      [Ev.debug ("Setting message to: " ++
         ("Error received from element " ++ src ++ ": " ++ msg)),
       Ev.uiMessage ("Error received from element " ++ src ++ ": " ++ msg),
       Ev.setState "data-pipeline" GstState.null] ∧
    (error_cb src msg).filter Ev.isSetState =
      [Ev.setState "data-pipeline" GstState.null] ∧
    (error_cb src msg).filter Ev.isFactoryMake = [] ∧
    (error_cb src msg).filter Ev.isLinkAttempt = [] ∧
    Ev.setState "data-pipeline" GstState.playing ∉ error_cb src msg ∧
    (state_changed_cb b st).filter Ev.isSetState = [] ∧
    (check_initialization_complete d).2.filter Ev.isSetState = [] := by
  refine ⟨rfl, rfl, rfl, rfl, ?_, ?_, ?_⟩
  · simp [error_cb, set_ui_message]
  · cases b <;> rfl
  · by_cases h : (!d.initialized && d.mainLoopLive) = true <;>
      simp [check_initialization_complete, h, Ev.isSetState]

/-- C7: the dynamic-link handler, when a new output pad appears, looks up
the fixed-name "sink" input pad of the downstream encoder element and
issues exactly one pad-link connecting the new pad to it; when the sink
pad cannot be located the attempt is dropped without any controller
message; and the static pipeline builds perform no pad-level dynamic
connection at all, so at most one dynamic connection arises per handler
invocation. -/
theorem on_pad_added_links_encoder_sink (found : Bool) (padName encName : String)
    (env : Env) (a : Addr) (sv : VState) (sa : AState) :
    on_pad_added true padName encName =
      [Ev.print "Dynamic pad created, linking\n",
       Ev.getStaticPad encName "sink",
       Ev.padLink padName (encName ++ ".sink")] ∧
    ((on_pad_added found padName encName).filter Ev.isPadLink).length = 1 ∧
    (on_pad_added found padName encName).filter Ev.isCallback = [] ∧
    (video_start env a sv).trace.filter Ev.isPadLink = [] ∧
    (audio_start env a sa).trace.filter Ev.isPadLink = [] := by
  refine ⟨rfl, ?_, ?_, (video_start_trace_filter env a sv).2,
    (audio_start_trace_filter env a sa).2⟩
  · cases found <;> rfl
  · cases found <;> rfl

/-- C9: `gst_native_finalize` signals the event loop to quit, then joins
the background thread, and only after the join releases the session
resources (controller global reference, context memory, native field);
neither the release tail nor the background thread's post-loop segment
invokes any controller callback, and in the linearized session trace
everything after the join is the callback-free release tail — so no
controller callback ever follows `finalize`'s return. -/
theorem finalize_joins_then_releases (parseError : Option String)
    (d d2 : CustomData) (loopEvs : List Ev) :
    gst_native_finalize true =
      [Ev.debug "Quitting main loop...", Ev.quitMainLoop,
       Ev.debug "Waiting for thread to finish...", Ev.joinThread] ++
        finalize_release_events ∧
    (gst_native_finalize true).filter Ev.isCallback = [] ∧
    finalize_release_events.filter Ev.isCallback = [] ∧
    ((app_function_postloop d2).2).filter Ev.isCallback = [] ∧
    (∃ pre, finalize_session_trace parseError d loopEvs =
      pre ++ Ev.joinThread :: finalize_release_events) := by
  refine ⟨rfl, rfl, rfl, rfl, ?_⟩
  cases parseError with
  | some e =>
      refine ⟨set_ui_message ("Unable to build pipeline: " ++ e) ++ [Ev.quitMainLoop], ?_⟩
      simp [finalize_session_trace, app_function_setup]
  | none =>
      refine ⟨(check_initialization_complete { d with mainLoopLive := true }).2 ++
        loopEvs ++ [Ev.quitMainLoop] ++ [Ev.setState "data-pipeline" GstState.null], ?_⟩
      simp [finalize_session_trace, app_function_setup, app_function_postloop]

/-- C1: `streamStart` decodes each raw byte by un-biasing with 128 modulo
256 — the `+128` narrowing the code performs is exactly subtraction of 128
mod 256: each decoded octet is below 256 and congruent to the raw byte
minus 128 — and, before the transition to PLAYING is requested, sets the
video transport sink's destination host to the dotted-quad string of the
decoded bytes and its port to 5000; for any sequence of such calls with
pairwise-distinct addresses, the effective destination after each call
equals the address passed in that call. -/
theorem streamStart_fresh_destination (env : Env) (s init : VState)
    (b0 b1 b2 b3 : Nat) (calls pre post : List RawAddr) (c : RawAddr)
    (hm : VideoMakesOk env) (hl : VideoLinksOk env)
    (hdist : (calls.map (fun x => decodeAddr x.r0 x.r1 x.r2 x.r3)).Pairwise (· ≠ ·))
    (hsplit : calls = pre ++ c :: post) :
    (decodeAddr b0 b1 b2 b3 =
        ⟨unbias128 b0, unbias128 b1, unbias128 b2, unbias128 b3⟩ ∧
      decodeByte b0 < 256 ∧
      (decodeByte b0 : Int) % 256 = ((b0 : Int) - 128) % 256) ∧
    (∃ r s1 tr, gst_native_stream_start env b0 b1 b2 b3 s = Res.done r s1 tr ∧
      s1.sinkHost = some (remote_IP_string (decodeAddr b0 b1 b2 b3)) ∧
      s1.sinkPort = some 5000 ∧
      ∃ t1 t2, tr = t1 ++ Ev.setState "pipeline" GstState.playing :: t2 ∧
        t1.filter Ev.isSetState = [] ∧
        Ev.setProp "sink" "host" (remote_IP_string (decodeAddr b0 b1 b2 b3)) ∈ t1 ∧
        Ev.setProp "sink" "port" "5000" ∈ t1) ∧
    (∃ r s1 tr, runStreamStarts env (pre ++ [c]) init = Res.done r s1 tr ∧
      s1.sinkHost = some (remote_IP_string (decodeAddr c.r0 c.r1 c.r2 c.r3)) ∧
      s1.sinkPort = some 5000) := by
  refine ⟨⟨rfl, by unfold decodeByte; omega, by unfold decodeByte; push_cast; omega⟩,
    ?_, runStreamStarts_last env hm hl pre c init⟩
  obtain ⟨r, s1, tr, heq, hh, hp, -, hex⟩ :=
    stream_start_done_spec env s b0 b1 b2 b3 (Or.inr ⟨hm, hl⟩)
  exact ⟨r, s1, tr, heq, hh, hp, hex⟩

/-- C1 witness: two calls with distinct addresses; after the second call
(raw bytes 64, 40, 129, 228) the destination is 192.168.1.100:5000. -/
theorem streamStart_fresh_destination_witness :
    ∃ r s1 tr,
      runStreamStarts envAllOk [⟨70, 40, 129, 228⟩, ⟨64, 40, 129, 228⟩] VState.init =
        Res.done r s1 tr ∧
      s1.sinkHost = some "192.168.1.100" ∧ s1.sinkPort = some 5000 :=
  (streamStart_fresh_destination envAllOk VState.init VState.init 64 40 129 228
    [⟨70, 40, 129, 228⟩, ⟨64, 40, 129, 228⟩] [⟨70, 40, 129, 228⟩] [] ⟨64, 40, 129, 228⟩
    ⟨rfl, rfl, rfl, rfl, rfl, rfl⟩ ⟨rfl, rfl, rfl, rfl, rfl⟩ (by decide) rfl).2.2

/-- C2: stage creation and linking happen only during the first start of a
pipeline kind: after the first successful build the build-once flag is
cleared and no later start or stop resets it; a second start creates no
element, attempts no link, and leaves the stage and link lists unchanged,
so the stage count after two starts equals the count after one — for the
video and the audio pipeline alike. -/
theorem build_once_no_duplicates (env : Env) (a1 a2 : Addr) (s : VState)
    (sa : AState) (t : VState) (ta : AState)
    (hm : VideoMakesOk env) (hl : VideoLinksOk env)
    (hma : AudioMakesOk env) (hla : AudioLinksOk env "audiosource")
    (hf : s.first_time_video = true) (hfa : sa.first_time_audio = true)
    (ht : t.first_time_video = false) (hta : ta.first_time_audio = false) :
    (∃ r1 s1 tr1 r2 s2 tr2,
      video_start env a1 s = Res.done r1 s1 tr1 ∧
      s1.first_time_video = false ∧
      s1.stages = s.stages ++ videoStages ∧
      video_start env a2 s1 = Res.done r2 s2 tr2 ∧
      s2.first_time_video = false ∧
      s2.stages = s1.stages ∧ s2.links = s1.links ∧
      tr2.filter Ev.isFactoryMake = [] ∧ tr2.filter Ev.isLinkAttempt = [] ∧
      s2.stages.length = s1.stages.length) ∧
    (∃ r t1 tr, video_start env a1 t = Res.done r t1 tr ∧
      t1.first_time_video = false ∧ t1.stages = t.stages ∧ t1.links = t.links) ∧
    (video_stop t).endState.map (fun x => x.first_time_video) =
      some t.first_time_video ∧
    (∃ r1 s1 tr1 r2 s2 tr2,
      audio_start env a1 sa = Res.done r1 s1 tr1 ∧
      s1.first_time_audio = false ∧
      s1.stages = sa.stages ++ audioStages "audiosource" ∧
      audio_start env a2 s1 = Res.done r2 s2 tr2 ∧
      s2.first_time_audio = false ∧
      s2.stages = s1.stages ∧ s2.links = s1.links ∧
      tr2.filter Ev.isFactoryMake = [] ∧ tr2.filter Ev.isLinkAttempt = [] ∧
      s2.stages.length = s1.stages.length) ∧
    (audio_stop ta).endState.map (fun x => x.first_time_audio) =
      some ta.first_time_audio := by
  refine ⟨?_, ?_, rfl, ?_, rfl⟩
  · obtain ⟨r1, s1, tr1, heq1, hh1, hp1, hf1, -, -, himp1, -, -⟩ :=
      video_start_done_spec env a1 s (Or.inr ⟨hm, hl⟩)
    obtain ⟨r2, s2, tr2, heq2, hh2, hp2, hf2, -, himp2, -, -, -⟩ :=
      video_start_done_spec env a2 s1 (Or.inl hf1)
    obtain ⟨hst2, hlk2, hmk2, hla2⟩ := himp2 hf1
    exact ⟨r1, s1, tr1, r2, s2, tr2, heq1, hf1, (himp1 hf).1, heq2, hf2, hst2, hlk2,
      hmk2, hla2, by rw [hst2]⟩
  · obtain ⟨r, t1, tr, heq, -, -, hft, -, himp, -, -, -⟩ :=
      video_start_done_spec env a1 t (Or.inl ht)
    obtain ⟨hst, hlk, -, -⟩ := himp ht
    exact ⟨r, t1, tr, heq, hft, hst, hlk⟩
  · obtain ⟨r1, s1, tr1, heq1, hh1, hp1, hf1, -, himp1⟩ :=
      audio_start_done_spec env a1 sa (Or.inr ⟨hma, hla⟩)
    obtain ⟨r2, s2, tr2, heq2, hh2, hp2, hf2, himp2, -⟩ :=
      audio_start_done_spec env a2 s1 (Or.inl hf1)
    obtain ⟨hst2, hlk2, hmk2, hla2⟩ := himp2 hf1
    exact ⟨r1, s1, tr1, r2, s2, tr2, heq1, hf1, himp1 hfa, heq2, hf2, hst2, hlk2,
      hmk2, hla2, by rw [hst2]⟩

/-- C2 witness: a double start of each pipeline from the initial state in
the all-success engine. -/
theorem build_once_no_duplicates_witness :
    ∃ r1 s1 tr1 r2 s2 tr2,
      video_start envAllOk ⟨192, 168, 1, 100⟩ VState.init = Res.done r1 s1 tr1 ∧
      s1.first_time_video = false ∧
      s1.stages = VState.init.stages ++ videoStages ∧
      video_start envAllOk ⟨192, 168, 1, 101⟩ s1 = Res.done r2 s2 tr2 ∧
      s2.first_time_video = false ∧
      s2.stages = s1.stages ∧ s2.links = s1.links ∧
      tr2.filter Ev.isFactoryMake = [] ∧ tr2.filter Ev.isLinkAttempt = [] ∧
      s2.stages.length = s1.stages.length :=
  (build_once_no_duplicates envAllOk ⟨192, 168, 1, 100⟩ ⟨192, 168, 1, 101⟩
    VState.init AState.init
    { VState.init with first_time_video := false }
    { AState.init with first_time_audio := false }
    ⟨rfl, rfl, rfl, rfl, rfl, rfl⟩ ⟨rfl, rfl, rfl, rfl, rfl⟩
    ⟨rfl, rfl, rfl, rfl⟩ ⟨rfl, rfl, rfl⟩ rfl rfl rfl rfl).1

/-- C10: a fully successful `video_start` returns 0, while
`gst_native_stream_start` logs "OK" exactly for strictly positive return
values — the logged result line for return value `r` is
`stream_start: <OK iff r > 0>` — so a successful video start is logged
"stream_start: NOT OK" and never "stream_start: OK". -/
theorem successful_video_start_logged_not_ok (env : Env) (s : VState)
    (b0 b1 b2 b3 : Nat)
    (h : s.first_time_video = false ∨ (VideoMakesOk env ∧ VideoLinksOk env))
    (hss : env.setStateOk "pipeline" GstState.playing = true) :
    (video_start env (decodeAddr b0 b1 b2 b3) s).retVal = some 0 ∧
    (∀ r s1 tr1, video_start env (decodeAddr b0 b1 b2 b3) s = Res.done r s1 tr1 →
      ∃ t, (gst_native_stream_start env b0 b1 b2 b3 s).trace =
        t ++ [Ev.print ("stream_start: " ++ (if r > 0 then "OK" else "NOT OK") ++ "\n"),
              Ev.debug "my pipeline streaming started"]) ∧
    Ev.print "stream_start: NOT OK\n" ∈ (gst_native_stream_start env b0 b1 b2 b3 s).trace ∧
    ("stream_start: " ++ (if (0 : Int) > 0 then "OK" else "NOT OK") ++ "\n") =
      "stream_start: NOT OK\n" ∧
    ("stream_start: NOT OK\n" : String) ≠ "stream_start: OK\n" := by
  obtain ⟨r, s1, tr, heq, hh, hp, hf, hreq, -, -, hr0, -⟩ :=
    video_start_done_spec env (decodeAddr b0 b1 b2 b3) s h
  have hr : r = 0 := hr0 hss
  subst hr
  have hB : ∀ r' (s1' : VState) tr1',
      video_start env (decodeAddr b0 b1 b2 b3) s = Res.done r' s1' tr1' →
      ∃ t, (gst_native_stream_start env b0 b1 b2 b3 s).trace =
        t ++ [Ev.print ("stream_start: " ++ (if r' > 0 then "OK" else "NOT OK") ++ "\n"),
              Ev.debug "my pipeline streaming started"] := by
    intro r' s1' tr1' heq'
    refine ⟨Ev.print ("receiver IP: " ++
      remote_IP_string (decodeAddr b0 b1 b2 b3) ++ "\n") :: tr1', ?_⟩
    unfold gst_native_stream_start
    rw [heq']
    simp [Res.trace]
  refine ⟨by rw [heq]; rfl, hB, ?_, rfl, by decide⟩
  obtain ⟨t, htr⟩ := hB 0 s1 tr heq
  rw [htr]
  simp

/-- C10 witness: from the fresh state with the all-success engine, the raw
bytes (64, 40, 129, 228) give a fully successful start whose log line is
"stream_start: NOT OK". -/
theorem successful_video_start_logged_not_ok_witness :
    (video_start envAllOk (decodeAddr 64 40 129 228) VState.init).retVal = some 0 ∧
    Ev.print "stream_start: NOT OK\n" ∈
      (gst_native_stream_start envAllOk 64 40 129 228 VState.init).trace :=
  ⟨(successful_video_start_logged_not_ok envAllOk VState.init 64 40 129 228
      (Or.inr ⟨⟨rfl, rfl, rfl, rfl, rfl, rfl⟩, ⟨rfl, rfl, rfl, rfl, rfl⟩⟩) rfl).1,
   (successful_video_start_logged_not_ok envAllOk VState.init 64 40 129 228
      (Or.inr ⟨⟨rfl, rfl, rfl, rfl, rfl, rfl⟩, ⟨rfl, rfl, rfl, rfl, rfl⟩⟩) rfl).2.2.1⟩

/-- C6: during construction links are attempted in the fixed declared
sequence, and a link failure aborts the build immediately: when every link
before the failing one succeeds and that link fails, the build — and the
start call around it — returns -1, the link attempts in the trace are
exactly the declared prefix up to and including the failing link (nothing
after it is attempted, no retry), and the diagnostic naming the two
stages appears in the trace; on a fully successful build the attempts are
exactly the declared sequence in order. This holds for the video and
audio builds alike. -/
theorem link_failure_aborts_build (env envA envOk : Env) (s : VState)
    (sa : AState) (a : Addr)
    (pre : List LinkSpec) (l : LinkSpec) (post : List LinkSpec)
    (preA : List LinkSpec) (lA : LinkSpec) (postA : List LinkSpec)
    (hm : VideoMakesOk env) (hsplit : videoLinkSpecs = pre ++ l :: post)
    (hpre : ∀ x ∈ pre, env.linkOk x.src x.dst = true)
    (hfail : env.linkOk l.src l.dst = false)
    (hf : s.first_time_video = true)
    (hmA : AudioMakesOk envA)
    (hsplitA : audioLinkSpecs "audiosource" = preA ++ lA :: postA)
    (hpreA : ∀ x ∈ preA, envA.linkOk x.src x.dst = true)
    (hfailA : envA.linkOk lA.src lA.dst = false)
    (hmo : VideoMakesOk envOk) (hlo : VideoLinksOk envOk) :
    (∃ s1, video_build env s = Res.done (-1) s1
      (videoMakesTrace ++
        (okLinksTrace pre ++ [Ev.linkAttempt l.src l.dst, Ev.debug l.failMsg]))) ∧
    (∃ s1, video_start env a s = Res.done (-1) s1
      (videoMakesTrace ++
        (okLinksTrace pre ++ [Ev.linkAttempt l.src l.dst, Ev.debug l.failMsg]))) ∧
    linkAttempts (videoMakesTrace ++
        (okLinksTrace pre ++ [Ev.linkAttempt l.src l.dst, Ev.debug l.failMsg])) =
      (pre ++ [l]).map (fun x => (x.src, x.dst)) ∧
    Ev.debug l.failMsg ∈ videoMakesTrace ++
      (okLinksTrace pre ++ [Ev.linkAttempt l.src l.dst, Ev.debug l.failMsg]) ∧
    (∃ s1, audio_build envA sa = Res.done (-1) s1
      (audioMakesTrace true ++
        Ev.binAdd "pipeline-audio" (audioStages "audiosource") ::
          (okLinksTrace preA ++ [Ev.linkAttempt lA.src lA.dst, Ev.debug lA.failMsg]))) ∧
    linkAttempts (audioMakesTrace true ++
        Ev.binAdd "pipeline-audio" (audioStages "audiosource") ::
          (okLinksTrace preA ++ [Ev.linkAttempt lA.src lA.dst, Ev.debug lA.failMsg])) =
      (preA ++ [lA]).map (fun x => (x.src, x.dst)) ∧
    Ev.debug lA.failMsg ∈ audioMakesTrace true ++
      Ev.binAdd "pipeline-audio" (audioStages "audiosource") ::
        (okLinksTrace preA ++ [Ev.linkAttempt lA.src lA.dst, Ev.debug lA.failMsg]) ∧
    linkAttempts (video_build envOk s).trace =
      videoLinkSpecs.map (fun x => (x.src, x.dst)) := by
  have hvb := video_build_fail env s hm pre l post hsplit hpre hfail
  have hab := audio_build_fail envA sa hmA preA lA postA hsplitA hpreA hfailA
  have hvs : video_start env a s =
      Res.done (-1)
        { s with stages := s.stages ++ videoStages,
                 links := s.links ++ pre.map (fun x => (x.src, x.dst)) }
        (videoMakesTrace ++
          (okLinksTrace pre ++ [Ev.linkAttempt l.src l.dst, Ev.debug l.failMsg])) := by
    unfold video_start
    rw [hvb, hf]
    rfl
  refine ⟨⟨_, hvb⟩, ⟨_, hvs⟩, ?_, by simp, ⟨_, hab⟩, ?_, by simp, ?_⟩
  · rw [linkAttempts_append, linkAttempts_append, linkAttempts_okLinksTrace]
    simp [linkAttempts, List.map_append]
    decide
  · have : audioMakesTrace true ++
        Ev.binAdd "pipeline-audio" (audioStages "audiosource") ::
          (okLinksTrace preA ++ [Ev.linkAttempt lA.src lA.dst, Ev.debug lA.failMsg]) =
        (audioMakesTrace true ++ [Ev.binAdd "pipeline-audio" (audioStages "audiosource")]) ++
          (okLinksTrace preA ++ [Ev.linkAttempt lA.src lA.dst, Ev.debug lA.failMsg]) := by
      simp
    rw [this, linkAttempts_append, linkAttempts_append, linkAttempts_append,
      linkAttempts_okLinksTrace]
    simp [linkAttempts, List.map_append]
    decide
  · rw [video_build_ok envOk s hmo hlo]
    show linkAttempts (videoMakesTrace ++ okLinksTrace videoLinkSpecs) = _
    rw [linkAttempts_append, linkAttempts_okLinksTrace]
    rfl

/-- C6 witness: the queue→capsfilter link (second in the declared video
sequence) fails: the start call returns -1, only the first two links were
attempted, and the diagnostic names queue and capsfilter; the audio chain
fails analogously at audioconvert→speexenc. -/
theorem link_failure_aborts_build_witness :
    (∃ s1, video_start envQueueCapsLinkFail ⟨192, 168, 1, 100⟩ VState.init =
      Res.done (-1) s1
        (videoMakesTrace ++
          (okLinksTrace [⟨"ahcsrc", "srcqueue", "Linked ahcsrc camera with queue: OK\n",
              "Failed to link ahcsrc camera with queue!\n"⟩] ++
            [Ev.linkAttempt "srcqueue" "capsfilter",
             Ev.debug "Failed to link queue with capsfilter!\n"]))) ∧
    Ev.debug "Failed to link queue with capsfilter!\n" ∈ videoMakesTrace ++
      (okLinksTrace [⟨"ahcsrc", "srcqueue", "Linked ahcsrc camera with queue: OK\n",
          "Failed to link ahcsrc camera with queue!\n"⟩] ++
        [Ev.linkAttempt "srcqueue" "capsfilter",
         Ev.debug "Failed to link queue with capsfilter!\n"]) := by
  have h := link_failure_aborts_build envQueueCapsLinkFail envAudioConvLinkFail envAllOk
    VState.init AState.init ⟨192, 168, 1, 100⟩
    [⟨"ahcsrc", "srcqueue", "Linked ahcsrc camera with queue: OK\n",
      "Failed to link ahcsrc camera with queue!\n"⟩]
    ⟨"srcqueue", "capsfilter", "Linked queue with capsfilter: OK\n",
      "Failed to link queue with capsfilter!\n"⟩
    [⟨"capsfilter", "videoconvert", "Linked capsfilter with converter: OK\n",
      "Failed to link capsfilter with converter!\n"⟩,
     ⟨"videoconvert", "encoder", "Linked converter with encoder: OK\n",
      "Failed to link converter with encoder!\n"⟩,
     ⟨"encoder", "sink", "Linked encoder with UDP sink: OK\n",
      "Failed to link encoder with UDP sink!\n"⟩]
    [⟨"audiosource", "audio-convert", "Linked audio source with audioconvert: OK\n",
      "Failed to link audio source with audioconvert!\n"⟩]
    ⟨"audio-convert", "audio-encoder", "Linked audioconvert with speexenc: OK\n",
      "Failed to link audioconvert with speexenc!\n"⟩
    [⟨"audio-encoder", "sink", "Linked speexenc with audioudpsink: OK\n",
      "Failed to link speexenc with audioudpsink!\n"⟩]
    ⟨rfl, rfl, rfl, rfl, rfl, rfl⟩ rfl (by decide) rfl rfl
    ⟨rfl, rfl, rfl, rfl⟩ rfl (by decide) rfl
    ⟨rfl, rfl, rfl, rfl, rfl, rfl⟩ ⟨rfl, rfl, rfl, rfl, rfl⟩
  exact ⟨h.2.1, h.2.2.2.1⟩

/-- C8: during the first audio build, if the primary capture source
(openslessrc) returns null, the builder substitutes exactly one fallback —
the synthetic audiotestsrc — and construction proceeds with it as the
pipeline's source stage; instantiation failure of any other required audio
stage (the udpsink, the converter, the encoder — or of both sources) is a
fatal g_assert abort for that pipeline, with no retry. -/
theorem audio_capture_source_fallback (envF env1 env2 env3 env4 : Env)
    (s : AState) (a : Addr)
    (hf : s.first_time_audio = true)
    (h1 : envF.makeOk "openslessrc" = false) (ht : envF.makeOk "audiotestsrc" = true)
    (m2 : envF.makeOk "audioconvert" = true) (m3 : envF.makeOk "speexenc" = true)
    (m4 : envF.makeOk "udpsink" = true) (hl : AudioLinksOk envF "audiotestsrc")
    (g1 : env1.makeOk "udpsink" = false)
    (g2m : env2.makeOk "udpsink" = true) (g2a : env2.makeOk "openslessrc" = false)
    (g2b : env2.makeOk "audiotestsrc" = false)
    (g3m : env3.makeOk "udpsink" = true)
    (g3s : (env3.makeOk "openslessrc" || env3.makeOk "audiotestsrc") = true)
    (g3c : env3.makeOk "audioconvert" = false)
    (g4m : env4.makeOk "udpsink" = true)
    (g4s : (env4.makeOk "openslessrc" || env4.makeOk "audiotestsrc") = true)
    (g4c : env4.makeOk "audioconvert" = true) (g4e : env4.makeOk "speexenc" = false) :
    (audio_build envF s =
      Res.done 0
        { s with first_time_audio := false, sourceName := some "audiotestsrc",
                 stages := s.stages ++ audioStages "audiotestsrc",
                 links := s.links ++
                   (audioLinkSpecs "audiotestsrc").map (fun l => (l.src, l.dst)) }
        (audioMakesTrace false ++
          Ev.binAdd "pipeline-audio" (audioStages "audiotestsrc") ::
            okLinksTrace (audioLinkSpecs "audiotestsrc"))) ∧
    ((audioMakesTrace false ++
        Ev.binAdd "pipeline-audio" (audioStages "audiotestsrc") ::
          okLinksTrace (audioLinkSpecs "audiotestsrc")).filter
        (fun e => e = Ev.factoryMake "audiotestsrc")).length = 1 ∧
    (∃ r s1 tr, audio_start envF a s = Res.done r s1 tr ∧
      s1.sourceName = some "audiotestsrc" ∧ s1.first_time_audio = false ∧
      "audiotestsrc" ∈ s1.stages) ∧
    (∃ tr, audio_build env1 s = Res.assertAbort tr) ∧
    (∃ tr, audio_build env2 s = Res.assertAbort tr) ∧
    (∃ tr, audio_build env3 s = Res.assertAbort tr) ∧
    (∃ tr, audio_build env4 s = Res.assertAbort tr) := by
  refine ⟨audio_build_ok_fallback envF s h1 ht m2 m3 m4 hl, rfl, ?_,
    ⟨_, audio_build_abort_sink env1 s g1⟩,
    ⟨_, audio_build_abort_source env2 s g2m g2a g2b⟩,
    ⟨_, audio_build_abort_convert env3 s g3m g3s g3c⟩,
    ⟨_, audio_build_abort_speex env4 s g4m g4s g4c g4e⟩⟩
  rw [audio_start_first_fallback envF a s hf h1 ht m2 m3 m4 hl, audio_start_tail_eq]
  cases hss : envF.setStateOk "pipeline-audio" GstState.playing
  · exact ⟨-1, _, _, rfl, rfl, rfl, by simp [audioStages]⟩
  · exact ⟨1, _, _, rfl, rfl, rfl, by simp [audioStages]⟩

/-- C8 witness: with openslessrc unavailable the fallback audiotestsrc is
used and the start completes with it as source; with the udpsink, both
sources, audioconvert, or speexenc unavailable the build asserts. -/
theorem audio_capture_source_fallback_witness :
    (∃ r s1 tr, audio_start envNoOpenSLES ⟨192, 168, 1, 100⟩ AState.init =
      Res.done r s1 tr ∧
      s1.sourceName = some "audiotestsrc" ∧ s1.first_time_audio = false ∧
      "audiotestsrc" ∈ s1.stages) ∧
    (∃ tr, audio_build envNoUdpSink AState.init = Res.assertAbort tr) ∧
    (∃ tr, audio_build envNoAudioSources AState.init = Res.assertAbort tr) ∧
    (∃ tr, audio_build envNoAudioConvert AState.init = Res.assertAbort tr) ∧
    (∃ tr, audio_build envNoSpeex AState.init = Res.assertAbort tr) := by
  have h := audio_capture_source_fallback envNoOpenSLES envNoUdpSink envNoAudioSources
    envNoAudioConvert envNoSpeex AState.init ⟨192, 168, 1, 100⟩ rfl
    rfl rfl rfl rfl rfl ⟨rfl, rfl, rfl⟩
    rfl rfl rfl rfl rfl rfl rfl rfl rfl rfl rfl
  exact ⟨h.2.2.1, h.2.2.2.1, h.2.2.2.2.1, h.2.2.2.2.2.1, h.2.2.2.2.2.2⟩

end GstUp
